import Mathlib

/-!
# Relayer: block-header step of the proof builder and the processor flags

A shallow embedding of

* `packages/relayer/proof/block_header.go` (`Prover.blockHeader`), and
* `packages/relayer/cmd/flags/processor.go` (the processor flag declarations and the
  list handed to `MergeFlags`),

followed by the properties established about them.
-/

namespace Relayer

/-! ## Collaborator types used by `block_header.go` -/

/-- HashLength is the length in bytes of a go-ethereum `common.Hash`. -/
abbrev HashLength : Nat := 32

/-- Hash is go-ethereum's `common.Hash`, the array type `[32]byte`. -/
abbrev Hash : Type := Fin HashLength → Fin 256

/-- The composite literal `common.Hash{}`: every byte is zero. -/
def Hash.zero : Hash := fun _ => 0

/-- Non-nil values of Go's `error` interface: an error raised by a collaborator (here the RPC
client behind the blocker), or an annotation of another error made by `github.com/pkg/errors`.
The stack trace that `errors.Wrap` also attaches is not represented. -/
inductive GoError where
  | fundamental (msg : String)
  | withMessage (cause : GoError) (msg : String)
deriving DecidableEq, Repr

/-- The function `errors.Wrap` of `github.com/pkg/errors`: annotates `err` with `message`;
if `err` is nil, `Wrap` returns nil. A value of the interface type `error` is an
`Option GoError`, nil being `none`. -/
def errors.Wrap (err : Option GoError) (message : String) : Option GoError :=
  match err with
  | none => none
  | some e => some (GoError.withMessage e message)

/-- The interface `blocker` of package `proof`, as `blockHeader` uses it. `Block` is the type of
the values of `*types.Block` (nil included), `Ctx` the type of `context.Context` values, and `σ`
the state of whatever stands behind the interface (a connection, a mock, a chain): each method
takes the state before the call and returns the Go result pair with the state after it.
The block number is a `*big.Int`, nil being `none`. -/
structure blocker (Ctx Block σ : Type) where
  BlockByHash : Ctx → Hash → σ → (Block × Option GoError) × σ
  BlockByNumber : Ctx → Option Int → σ → (Block × Option GoError) × σ

/-- What `blockHeader` uses of package `encoding`, whose source is not part of the development:
the zero value `encoding.BlockHeader{}` and the function `encoding.BlockToBlockHeader`. Both are
parameters of everything below. -/
structure encoding (Block BlockHeader : Type) where
  zeroBlockHeader : BlockHeader
  BlockToBlockHeader : Block → BlockHeader

/-! ## `Prover.blockHeader` -/

section BlockHeader

variable {Prover Ctx Block BlockHeader σ : Type}

/-- The method `(p *Prover) blockHeader(ctx, blocker, blockHash)`: fetches a block via rpc, then
converts it to the `BlockHeader` type. The result is the Go pair `(encoding.BlockHeader, error)`
together with the blocker state after the call. -/
def blockHeader (enc : encoding Block BlockHeader) (_p : Prover) (ctx : Ctx)
    (blocker : blocker Ctx Block σ) (blockHash : Hash) (s : σ) :
    (BlockHeader × Option GoError) × σ :=
  if blockHash = Hash.zero then
    match blocker.BlockByNumber ctx none s with
    | ((b, err), s1) =>
      if err ≠ none then
        ((enc.zeroBlockHeader, errors.Wrap err "blocker.BlockByNumber"), s1)
      else
        ((enc.BlockToBlockHeader b, none), s1)
  else
    match blocker.BlockByHash ctx blockHash s with
    | ((b, err), s1) =>
      if err ≠ none then
        ((enc.zeroBlockHeader, errors.Wrap err "blocker.BlockByHash"), s1)
      else
        ((enc.BlockToBlockHeader b, none), s1)

/-- One call made on a `blocker`, with its arguments. -/
inductive Call (Ctx : Type) where
  | BlockByNumber (ctx : Ctx) (number : Option Int)
  | BlockByHash (ctx : Ctx) (hash : Hash)

/-- A blocker that answers exactly as `bl` does and appends every call it receives to a log
kept next to the state of `bl`. -/
def recording (bl : blocker Ctx Block σ) : blocker Ctx Block (σ × List (Call Ctx)) where
  BlockByHash ctx hash s :=
    match bl.BlockByHash ctx hash s.1 with
    | (r, s1) => (r, (s1, s.2 ++ [Call.BlockByHash ctx hash]))
  BlockByNumber ctx number s :=
    match bl.BlockByNumber ctx number s.1 with
    | (r, s1) => (r, (s1, s.2 ++ [Call.BlockByNumber ctx number]))

end BlockHeader

/-! ### A concrete blocker, used to instantiate the statements -/

/-- A chain of two blocks for the examples: asking for the latest block answers block `7`,
asking by hash answers block `5` when the first byte of the hash is `1` and fails otherwise.
The state counts the calls received. -/
def sampleBlocker : blocker Unit (Option Nat) Nat where
  BlockByHash _ hash n :=
    if hash 0 = 1 then ((some 5, none), n + 1)
    else ((none, some (GoError.fundamental "not found")), n + 1)
  BlockByNumber _ _ n := ((some 7, none), n + 1)

/-- A blocker whose connection is down: every fetch fails. -/
def failingBlocker : blocker Unit (Option Nat) Nat where
  BlockByHash _ _ n := ((none, some (GoError.fundamental "connection refused")), n + 1)
  BlockByNumber _ _ n := ((none, some (GoError.fundamental "connection refused")), n + 1)

/-- A header conversion for the examples: the header of block `n` is `n + 100`, the zero header
is `0`. -/
def sampleEncoding : encoding (Option Nat) Nat where
  zeroBlockHeader := 0
  BlockToBlockHeader b := b.getD 0 + 100

/-- A hash whose first byte is `1` and whose other bytes are zero. -/
def sampleHash : Hash := fun i => if i = 0 then 1 else 0

/-! ## The flag types of `github.com/urfave/cli/v2` -/

namespace cli

/-- The struct `cli.StringFlag`, with the fields the declarations below set and the default
`Value`. A field a composite literal leaves out has its zero value. -/
structure StringFlag where
  Name : String := ""
  Usage : String := ""
  Required : Bool := false
  Category : String := ""
  EnvVars : List String := []
  Value : String := ""
deriving DecidableEq, Repr

/-- The struct `cli.Uint64Flag`; `Value` is a `uint64`. -/
structure Uint64Flag where
  Name : String := ""
  Usage : String := ""
  Required : Bool := false
  Category : String := ""
  EnvVars : List String := []
  Value : Nat := 0
deriving DecidableEq, Repr

/-- The struct `cli.BoolFlag`. -/
structure BoolFlag where
  Name : String := ""
  Usage : String := ""
  Required : Bool := false
  Category : String := ""
  EnvVars : List String := []
  Value : Bool := false
deriving DecidableEq, Repr

/-- The struct `cli.StringSliceFlag`; `Value` is a `*cli.StringSlice`, nil being `none`. -/
structure StringSliceFlag where
  Name : String := ""
  Usage : String := ""
  Required : Bool := false
  Category : String := ""
  EnvVars : List String := []
  Value : Option (List String) := none
deriving DecidableEq, Repr

/-- The interface `cli.Flag`, inhabited here by the four flag types the processor uses. -/
inductive Flag where
  | stringFlag (f : StringFlag)
  | uint64Flag (f : Uint64Flag)
  | boolFlag (f : BoolFlag)
  | stringSliceFlag (f : StringSliceFlag)
deriving DecidableEq, Repr

/-- The field `Name` of a flag: the name it is set by on the command line. -/
def Flag.Name : Flag → String
  | .stringFlag f => f.Name
  | .uint64Flag f => f.Name
  | .boolFlag f => f.Name
  | .stringSliceFlag f => f.Name

/-- The method `IsRequired()`: the field `Required` of a flag. -/
def Flag.IsRequired : Flag → Bool
  | .stringFlag f => f.Required
  | .uint64Flag f => f.Required
  | .boolFlag f => f.Required
  | .stringSliceFlag f => f.Required

/-- The field `EnvVars` of a flag: the environment variables it can be set by. -/
def Flag.EnvVars : Flag → List String
  | .stringFlag f => f.EnvVars
  | .uint64Flag f => f.EnvVars
  | .boolFlag f => f.EnvVars
  | .stringSliceFlag f => f.EnvVars

/-- The function `checkRequiredFlags` of the library, for flags without aliases: the names of
the flags marked required that an invocation has not set, `isSet` telling which names it has set
(on the command line or through an environment variable). The application runs its action only
when this list is empty and fails with a required-flags error otherwise. -/
def checkRequiredFlags (flags : List Flag) (isSet : String → Bool) : List String :=
  (flags.filter (fun f => f.IsRequired && !isSet f.Name)).map Flag.Name

end cli

/-! ## `packages/relayer/cmd/flags/processor.go`

The constant `processorCategory`, the function `MergeFlags` and the list `CommonFlags` are
declared in other files of package `flags`; they are parameters here. -/

section ProcessorFlags

variable (processorCategory : String)

def ProcessorPrivateKey : cli.StringFlag :=
  { Name := "processorPrivateKey"
    Usage := "Private key to process messages on the destination chain"
    Required := true
    Category := processorCategory
    EnvVars := ["PROCESSOR_PRIVATE_KEY"] }

def SrcSignalServiceAddress : cli.StringFlag :=
  { Name := "srcSignalServiceAddress"
    Usage := "SignalService address for the source chain"
    Required := true
    Category := processorCategory
    EnvVars := ["SRC_SIGNAL_SERVICE_ADDRESS"] }

def DestTaikoAddress : cli.StringFlag :=
  { Name := "destTaikoAddress"
    Usage := "Taiko address for the destination chain"
    Required := true
    Category := processorCategory
    EnvVars := ["DEST_TAIKO_ADDRESS"] }

def DestERC20VaultAddress : cli.StringFlag :=
  { Name := "destERC20VaultAddress"
    Usage := "ERC20Vault address for the destination chain, only required if you want to process NFTs"
    Category := processorCategory
    Required := true
    EnvVars := ["DEST_ERC20_VAULT_ADDRESS"] }

def DestERC1155VaultAddress : cli.StringFlag :=
  { Name := "destERC1155Address"
    Usage := "ERC1155Vault address for the destination chain"
    Category := processorCategory
    Required := true
    EnvVars := ["DEST_ERC1155_VAULT_ADDRESS"] }

def DestERC721VaultAddress : cli.StringFlag :=
  { Name := "destERC721Address"
    Usage := "ERC721Vault address for the destination chain"
    Category := processorCategory
    Required := true
    EnvVars := ["DEST_ERC721_VAULT_ADDRESS"] }

def HeaderSyncInterval : cli.Uint64Flag :=
  { Name := "headerSyncInterval"
    Usage := "Interval to poll to see if header is synced yet, in seconds"
    Value := 10
    Category := processorCategory
    EnvVars := ["HEADER_SYNC_INTERVAL_IN_SECONDS"] }

def Confirmations : cli.Uint64Flag :=
  { Name := "confirmations"
    Usage := "Confirmations to wait for on source chain before processing on destination chain"
    Value := 3
    Category := processorCategory
    EnvVars := ["CONFIRMATIONS_BEFORE_PROCESSING"] }

def ConfirmationTimeout : cli.Uint64Flag :=
  { Name := "confirmationTimeout"
    Usage := "Timeout when waiting for a processed message receipt in seconds"
    Value := 360
    Category := processorCategory
    EnvVars := ["CONFIRMATIONS_TIMEOUT_IN_SECONDS"] }

def ProfitableOnly : cli.BoolFlag :=
  { Name := "profitableOnly"
    Usage := "Whether to only process transactions that are estimated to be profitable"
    Value := false
    Category := processorCategory
    EnvVars := ["PROFITABLE_ONLY"] }

def BackOffRetryInterval : cli.Uint64Flag :=
  { Name := "backoff.retryInterval"
    Usage := "Retry interval in seconds when there is an error"
    Category := processorCategory
    Value := 12 }

def BackOffMaxRetrys : cli.Uint64Flag :=
  { Name := "backoff.maxRetrys"
    Usage := "Max retry times when there is an error"
    Category := processorCategory
    Value := 3 }

def QueuePrefetchCount : cli.Uint64Flag :=
  { Name := "queue.prefetch"
    Usage := "How many messages to prefetch"
    Category := processorCategory
    Value := 1
    EnvVars := ["QUEUE_PREFETCH_COUNT"] }

def EnableTaikoL2 : cli.BoolFlag :=
  { Name := "enableTaikoL2"
    Usage := "Whether to instantiate a taikoL2 contract based off the config.DestTaikoAddress"
    Value := false
    Category := processorCategory
    EnvVars := ["ENABLE_TAIKO_L2"] }

def HopSignalServiceAddresses : cli.StringSliceFlag :=
  { Name := "hopSignalServiceAddresses"
    Usage := "SignalService addresses for the intermediary chains"
    Required := false
    Category := processorCategory
    EnvVars := ["HOP_SIGNAL_SERVICE_ADDRESSES"] }

def HopTaikoAddresses : cli.StringSliceFlag :=
  { Name := "hopTaikoAddresses"
    Usage := "Taiko addresses for the intermediary chains"
    Required := false
    Category := processorCategory
    EnvVars := ["HOP_TAIKO_ADDRESSES"] }

def HopRPCUrls : cli.StringSliceFlag :=
  { Name := "hopRpcUrls"
    Usage := "RPC URL for the intermediary chains"
    Required := false
    Category := processorCategory
    EnvVars := ["HOP_RPC_URLS"] }

/-- The slice literal `[]cli.Flag{...}` that is the second argument of `MergeFlags` in the
declaration of `ProcessorFlags`, in the order of the source. -/
def processorFlagList : List cli.Flag :=
  [ .stringFlag (SrcSignalServiceAddress processorCategory),
    .stringFlag (DestERC721VaultAddress processorCategory),
    .stringFlag (DestERC1155VaultAddress processorCategory),
    .stringFlag (DestERC20VaultAddress processorCategory),
    .stringFlag (DestTaikoAddress processorCategory),
    .stringFlag (ProcessorPrivateKey processorCategory),
    -- optional
    .uint64Flag (HeaderSyncInterval processorCategory),
    .uint64Flag (Confirmations processorCategory),
    .uint64Flag (ConfirmationTimeout processorCategory),
    .boolFlag (ProfitableOnly processorCategory),
    .uint64Flag (BackOffRetryInterval processorCategory),
    .uint64Flag (BackOffMaxRetrys processorCategory),
    .uint64Flag (QueuePrefetchCount processorCategory),
    .boolFlag (EnableTaikoL2 processorCategory),
    .stringSliceFlag (HopRPCUrls processorCategory),
    .stringSliceFlag (HopSignalServiceAddresses processorCategory),
    .stringSliceFlag (HopTaikoAddresses processorCategory) ]

/-- The variable `ProcessorFlags`: `MergeFlags(CommonFlags, []cli.Flag{...})`. `MergeFlags` is
variadic in the groups of flags it merges. -/
def ProcessorFlags (MergeFlags : List (List cli.Flag) → List cli.Flag)
    (CommonFlags : List cli.Flag) : List cli.Flag :=
  MergeFlags [CommonFlags, processorFlagList processorCategory]

/-- The flags declared by the first `var (...)` block of the file, in the order of their
declaration. -/
def firstVarBlock : List cli.Flag :=
  [ .stringFlag (ProcessorPrivateKey processorCategory),
    .stringFlag (SrcSignalServiceAddress processorCategory),
    .stringFlag (DestTaikoAddress processorCategory),
    .stringFlag (DestERC20VaultAddress processorCategory),
    .stringFlag (DestERC1155VaultAddress processorCategory),
    .stringFlag (DestERC721VaultAddress processorCategory) ]

/-- The flags declared by the second `var (...)` block of the file, the one under the comment
`// optional`, in the order of their declaration. -/
def secondVarBlock : List cli.Flag :=
  [ .uint64Flag (HeaderSyncInterval processorCategory),
    .uint64Flag (Confirmations processorCategory),
    .uint64Flag (ConfirmationTimeout processorCategory),
    .boolFlag (ProfitableOnly processorCategory),
    .uint64Flag (BackOffRetryInterval processorCategory),
    .uint64Flag (BackOffMaxRetrys processorCategory),
    .uint64Flag (QueuePrefetchCount processorCategory),
    .boolFlag (EnableTaikoL2 processorCategory),
    .stringSliceFlag (HopSignalServiceAddresses processorCategory),
    .stringSliceFlag (HopTaikoAddresses processorCategory),
    .stringSliceFlag (HopRPCUrls processorCategory) ]

/-- Every flag declared in `processor.go`, in the order of declaration. -/
def declaredFlags : List cli.Flag :=
  firstVarBlock processorCategory ++ secondVarBlock processorCategory

end ProcessorFlags

/-- An invocation of the processor that sets every flag marked required in the first `var`
block except `destERC20VaultAddress`, and sets nothing else. -/
def setsAllButERC20Vault (name : String) : Bool :=
  decide (name ∈ ["processorPrivateKey", "srcSignalServiceAddress", "destTaikoAddress",
    "destERC1155Address", "destERC721Address"])

/-! ## Startup of the processor

The code that reads the configuration and starts the processor is not among the sources
(`processor.go` of package `flags` only declares the options); this section follows the spec. -/

/-- Modelled from the spec: the hop part of the processor configuration, which the missing
configuration reader builds from the three hop flags: "ordered lists of hop signal-service
addresses, hop Taiko addresses, hop RPC URLs". -/
structure HopConfiguration where
  hopSignalServiceAddresses : List String
  hopTaikoAddresses : List String
  hopRpcUrls : List String
deriving DecidableEq, Repr

/-- Modelled from the spec: the state of the processor process, whose startup code is missing
from the sources. It is either stopped by a configuration error ("fatal at startup, process does
not begin consuming") or consuming, with the number of events consumed so far. -/
inductive ProcessState where
  | configurationError
  | consuming (consumed : Nat)
deriving DecidableEq, Repr

/-- Modelled from the spec: the startup check of the missing startup code. The three hop lists
"must be equal-length, positionally correlated"; "a length-mismatch across these lists is a
configuration error, fatal at startup, not at runtime". -/
def startup (c : HopConfiguration) : ProcessState :=
  if c.hopSignalServiceAddresses.length = c.hopTaikoAddresses.length ∧
      c.hopTaikoAddresses.length = c.hopRpcUrls.length then
    ProcessState.consuming 0
  else
    ProcessState.configurationError

/-- Modelled from the spec: the missing consuming loop takes one event off the queue. A process
stopped at startup "does not begin consuming". -/
def consume : ProcessState → ProcessState
  | .configurationError => .configurationError
  | .consuming consumed => .consuming (consumed + 1)

/-- Modelled from the spec: the number of events a process of the missing startup code has
consumed; none when it was stopped at startup. -/
def eventsConsumed : ProcessState → Nat
  | .configurationError => 0
  | .consuming consumed => consumed

/-! ## Properties of `Prover.blockHeader` -/

section BlockHeaderTheorems

variable {Prover Ctx Block BlockHeader σ : Type}

theorem sampleHash_ne_zero : sampleHash ≠ Hash.zero := fun e =>
  absurd (congrFun e 0) (by decide)

/-- Unfolding of `blockHeader` on the zero hash, in terms of the answer of the blocker. -/
theorem blockHeader_zero (enc : encoding Block BlockHeader) (p : Prover) (ctx : Ctx)
    (bl : blocker Ctx Block σ) (s : σ) :
    blockHeader enc p ctx bl Hash.zero s =
      (if (bl.BlockByNumber ctx none s).1.2 ≠ none then
        (enc.zeroBlockHeader, errors.Wrap (bl.BlockByNumber ctx none s).1.2 "blocker.BlockByNumber")
      else (enc.BlockToBlockHeader (bl.BlockByNumber ctx none s).1.1, none),
       (bl.BlockByNumber ctx none s).2) := by
  unfold blockHeader
  rw [if_pos rfl]
  rcases bl.BlockByNumber ctx none s with ⟨⟨b, err⟩, s1⟩
  cases err <;> simp

/-- Unfolding of `blockHeader` on a non-zero hash, in terms of the answer of the blocker. -/
theorem blockHeader_nonzero (enc : encoding Block BlockHeader) (p : Prover) (ctx : Ctx)
    (bl : blocker Ctx Block σ) (h : Hash) (hne : h ≠ Hash.zero) (s : σ) :
    blockHeader enc p ctx bl h s =
      (if (bl.BlockByHash ctx h s).1.2 ≠ none then
        (enc.zeroBlockHeader, errors.Wrap (bl.BlockByHash ctx h s).1.2 "blocker.BlockByHash")
      else (enc.BlockToBlockHeader (bl.BlockByHash ctx h s).1.1, none),
       (bl.BlockByHash ctx h s).2) := by
  unfold blockHeader
  rw [if_neg hne]
  rcases bl.BlockByHash ctx h s with ⟨⟨b, err⟩, s1⟩
  cases err <;> simp

/-- C1: for every blocker and every block hash, `blockHeader` performs exactly one block fetch.
Run against a blocker that logs the calls it receives, the log afterwards holds one call: for
the zero hash it is `BlockByNumber` with a nil block number (and so no `BlockByHash`), for a
non-zero hash it is `BlockByHash` with exactly that hash (and so no `BlockByNumber`). Logging
changes neither the value returned nor the state the blocker is left in. -/
theorem blockHeader_performs_one_fetch (enc : encoding Block BlockHeader) (p : Prover)
    (ctx : Ctx) (bl : blocker Ctx Block σ) (h : Hash) (s : σ) :
    (blockHeader enc p ctx (recording bl) h (s, [])).2.2 =
        [if h = Hash.zero then Call.BlockByNumber ctx none else Call.BlockByHash ctx h] ∧
      (blockHeader enc p ctx (recording bl) h (s, [])).1 = (blockHeader enc p ctx bl h s).1 ∧
      (blockHeader enc p ctx (recording bl) h (s, [])).2.1 = (blockHeader enc p ctx bl h s).2 := by
  by_cases hz : h = Hash.zero
  · subst hz
    rw [blockHeader_zero, blockHeader_zero, if_pos rfl]
    simp [recording]
  · rw [blockHeader_nonzero enc p ctx _ h hz, blockHeader_nonzero enc p ctx _ h hz, if_neg hz]
    simp [recording]

/-- C2: `blockHeader` returns an error if and only if the block fetch it performed failed; in
that case the returned header is the zero-value `encoding.BlockHeader` and the error is the
error of the fetch wrapped with the label of the path that failed: `blocker.BlockByNumber` when
the hash was zero, `blocker.BlockByHash` when it was non-zero. -/
theorem blockHeader_error_iff_fetch_failed (enc : encoding Block BlockHeader) (p : Prover)
    (ctx : Ctx) (bl : blocker Ctx Block σ) (h : Hash) (s : σ) :
    ((blockHeader enc p ctx bl h s).1.2 ≠ none ↔
        (if h = Hash.zero then bl.BlockByNumber ctx none s
          else bl.BlockByHash ctx h s).1.2 ≠ none) ∧
      ∀ e : GoError,
        (if h = Hash.zero then bl.BlockByNumber ctx none s
          else bl.BlockByHash ctx h s).1.2 = some e →
        (blockHeader enc p ctx bl h s).1 =
          (enc.zeroBlockHeader,
            some (GoError.withMessage e
              (if h = Hash.zero then "blocker.BlockByNumber" else "blocker.BlockByHash"))) := by
  by_cases hz : h = Hash.zero
  · subst hz
    rw [blockHeader_zero, if_pos rfl, if_pos rfl]
    rcases bl.BlockByNumber ctx none s with ⟨⟨b, err⟩, s1⟩
    cases err <;> simp [errors.Wrap]
  · rw [blockHeader_nonzero enc p ctx _ h hz, if_neg hz, if_neg hz]
    rcases bl.BlockByHash ctx h s with ⟨⟨b, err⟩, s1⟩
    cases err <;> simp [errors.Wrap]

/-- C3: for every blocker and hash for which the selected fetch succeeds with block `b` (it
returns `b` and a nil error), `blockHeader` returns exactly `encoding.BlockToBlockHeader(b)`
together with a nil error. -/
theorem blockHeader_converts_fetched_block (enc : encoding Block BlockHeader) (p : Prover)
    (ctx : Ctx) (bl : blocker Ctx Block σ) (h : Hash) (s : σ) (b : Block)
    (hfetch : (if h = Hash.zero then bl.BlockByNumber ctx none s
      else bl.BlockByHash ctx h s).1 = (b, none)) :
    (blockHeader enc p ctx bl h s).1 = (enc.BlockToBlockHeader b, none) := by
  by_cases hz : h = Hash.zero
  · subst hz
    rw [if_pos rfl] at hfetch
    rw [blockHeader_zero, hfetch]
    simp
  · rw [if_neg hz] at hfetch
    rw [blockHeader_nonzero enc p ctx _ h hz, hfetch]
    simp

/-- C4: header production is deterministic. For every block hash, two invocations of
`blockHeader` whose blockers give the same result for the selected fetch return the same header
and the same error, whatever the two receivers, the two contexts, and the states (and even the
kinds) of the two blockers are. -/
theorem blockHeader_deterministic {σ1 σ2 : Type} (enc : encoding Block BlockHeader)
    (p1 p2 : Prover) (ctx1 ctx2 : Ctx) (bl1 : blocker Ctx Block σ1) (bl2 : blocker Ctx Block σ2)
    (h : Hash) (s1 : σ1) (s2 : σ2)
    (hsame : (if h = Hash.zero then bl1.BlockByNumber ctx1 none s1
        else bl1.BlockByHash ctx1 h s1).1 =
      (if h = Hash.zero then bl2.BlockByNumber ctx2 none s2
        else bl2.BlockByHash ctx2 h s2).1) :
    (blockHeader enc p1 ctx1 bl1 h s1).1 = (blockHeader enc p2 ctx2 bl2 h s2).1 := by
  by_cases hz : h = Hash.zero
  · subst hz
    rw [if_pos rfl, if_pos rfl] at hsame
    rw [blockHeader_zero, blockHeader_zero, hsame]
  · rw [if_neg hz, if_neg hz] at hsame
    rw [blockHeader_nonzero enc p1 ctx1 _ h hz, blockHeader_nonzero enc p2 ctx2 _ h hz, hsame]

end BlockHeaderTheorems

/-- Instance of C2: with the connection down, asking for the block of `sampleHash` returns the
zero header and the error `blocker.BlockByHash: connection refused`; asking for the latest
block labels the error `blocker.BlockByNumber`. -/
theorem blockHeader_error_iff_fetch_failed_witness :
    (blockHeader sampleEncoding () () failingBlocker sampleHash 0).1 =
        (0, some (GoError.withMessage (GoError.fundamental "connection refused")
          "blocker.BlockByHash")) ∧
      (blockHeader sampleEncoding () () failingBlocker Hash.zero 0).1 =
        (0, some (GoError.withMessage (GoError.fundamental "connection refused")
          "blocker.BlockByNumber")) :=
  ⟨by
    have key := (blockHeader_error_iff_fetch_failed sampleEncoding () () failingBlocker
      sampleHash 0).2 (GoError.fundamental "connection refused")
      (by rw [if_neg sampleHash_ne_zero]; rfl)
    rw [if_neg sampleHash_ne_zero] at key
    exact key,
   by
    have key := (blockHeader_error_iff_fetch_failed sampleEncoding () () failingBlocker
      Hash.zero 0).2 (GoError.fundamental "connection refused")
      (by rw [if_pos rfl]; rfl)
    rw [if_pos rfl] at key
    exact key⟩

/-- Instance of C3: the latest block of the sample chain is block `7`, and `blockHeader` on the
zero hash returns its header `107` with a nil error. -/
theorem blockHeader_converts_fetched_block_witness :
    (if Hash.zero = Hash.zero then sampleBlocker.BlockByNumber () none 0
        else sampleBlocker.BlockByHash () Hash.zero 0).1 = (some 7, none) ∧
      (blockHeader sampleEncoding () () sampleBlocker Hash.zero 0).1 = (107, none) :=
  ⟨by rw [if_pos rfl]; rfl,
   blockHeader_converts_fetched_block sampleEncoding () () sampleBlocker Hash.zero 0 (some 7)
    (by rw [if_pos rfl]; rfl)⟩

/-- Instance of C4: the sample blocker in state `0` under one receiver and the same blocker in
state `41` under another receiver answer the fetch by `sampleHash` alike, and the two
invocations of `blockHeader` return the same pair. -/
theorem blockHeader_deterministic_witness :
    (if sampleHash = Hash.zero then sampleBlocker.BlockByNumber () none 0
        else sampleBlocker.BlockByHash () sampleHash 0).1 =
      (if sampleHash = Hash.zero then sampleBlocker.BlockByNumber () none 41
        else sampleBlocker.BlockByHash () sampleHash 41).1 ∧
      (blockHeader sampleEncoding (1 : Nat) () sampleBlocker sampleHash 0).1 =
        (blockHeader sampleEncoding (2 : Nat) () sampleBlocker sampleHash 41).1 :=
  ⟨by rw [if_neg sampleHash_ne_zero, if_neg sampleHash_ne_zero]; rfl,
   blockHeader_deterministic sampleEncoding (1 : Nat) 2 () () sampleBlocker sampleBlocker
    sampleHash 0 41 (by rw [if_neg sampleHash_ne_zero, if_neg sampleHash_ne_zero]; rfl)⟩

/-! ## Properties of the processor flags -/

section ProcessorFlagTheorems

variable (processorCategory : String)

/-- The names of the declared flags, in the order of declaration. -/
theorem declaredFlags_names :
    (declaredFlags processorCategory).map cli.Flag.Name =
      ["processorPrivateKey", "srcSignalServiceAddress", "destTaikoAddress",
        "destERC20VaultAddress", "destERC1155Address", "destERC721Address",
        "headerSyncInterval", "confirmations", "confirmationTimeout", "profitableOnly",
        "backoff.retryInterval", "backoff.maxRetrys", "queue.prefetch", "enableTaikoL2",
        "hopSignalServiceAddresses", "hopTaikoAddresses", "hopRpcUrls"] :=
  rfl

/-- The environment variables of the declared flags, in the order of declaration. -/
theorem declaredFlags_envVars :
    (declaredFlags processorCategory).flatMap cli.Flag.EnvVars =
      ["PROCESSOR_PRIVATE_KEY", "SRC_SIGNAL_SERVICE_ADDRESS", "DEST_TAIKO_ADDRESS",
        "DEST_ERC20_VAULT_ADDRESS", "DEST_ERC1155_VAULT_ADDRESS", "DEST_ERC721_VAULT_ADDRESS",
        "HEADER_SYNC_INTERVAL_IN_SECONDS", "CONFIRMATIONS_BEFORE_PROCESSING",
        "CONFIRMATIONS_TIMEOUT_IN_SECONDS", "PROFITABLE_ONLY", "QUEUE_PREFETCH_COUNT",
        "ENABLE_TAIKO_L2", "HOP_SIGNAL_SERVICE_ADDRESSES", "HOP_TAIKO_ADDRESSES",
        "HOP_RPC_URLS"] :=
  rfl

/-- The list handed to `MergeFlags` is a rearrangement of the declared flags. -/
theorem processorFlagList_perm_declaredFlags :
    (processorFlagList processorCategory).Perm (declaredFlags processorCategory) := by
  rw [List.perm_iff_count]
  intro a
  simp only [processorFlagList, declaredFlags, firstVarBlock, secondVarBlock, List.count_cons,
    List.count_nil, List.cons_append, List.nil_append]
  omega

/-- No flag occurs twice among the declared flags: their names already differ. -/
theorem declaredFlags_nodup : (declaredFlags processorCategory).Nodup := by
  apply List.Nodup.of_map cli.Flag.Name
  rw [declaredFlags_names]
  decide

/-- C5: the default values of the optional processor options are those the spec states:
headerSyncInterval 10, confirmations 3, confirmationTimeout 360, profitableOnly false,
backoff.retryInterval 12, backoff.maxRetrys 3, queue.prefetch 1 and enableTaikoL2 false; none
of these options is marked required. -/
theorem processor_option_defaults :
    ((HeaderSyncInterval processorCategory).Name, (HeaderSyncInterval processorCategory).Value,
        (HeaderSyncInterval processorCategory).Required) = ("headerSyncInterval", 10, false) ∧
      ((Confirmations processorCategory).Name, (Confirmations processorCategory).Value,
        (Confirmations processorCategory).Required) = ("confirmations", 3, false) ∧
      ((ConfirmationTimeout processorCategory).Name,
        (ConfirmationTimeout processorCategory).Value,
        (ConfirmationTimeout processorCategory).Required) = ("confirmationTimeout", 360, false) ∧
      ((ProfitableOnly processorCategory).Name, (ProfitableOnly processorCategory).Value,
        (ProfitableOnly processorCategory).Required) = ("profitableOnly", false, false) ∧
      ((BackOffRetryInterval processorCategory).Name,
        (BackOffRetryInterval processorCategory).Value,
        (BackOffRetryInterval processorCategory).Required) = ("backoff.retryInterval", 12, false) ∧
      ((BackOffMaxRetrys processorCategory).Name, (BackOffMaxRetrys processorCategory).Value,
        (BackOffMaxRetrys processorCategory).Required) = ("backoff.maxRetrys", 3, false) ∧
      ((QueuePrefetchCount processorCategory).Name, (QueuePrefetchCount processorCategory).Value,
        (QueuePrefetchCount processorCategory).Required) = ("queue.prefetch", 1, false) ∧
      ((EnableTaikoL2 processorCategory).Name, (EnableTaikoL2 processorCategory).Value,
        (EnableTaikoL2 processorCategory).Required) = ("enableTaikoL2", false, false) :=
  ⟨rfl, rfl, rfl, rfl, rfl, rfl, rfl, rfl⟩

/-- C6: among the seventeen processor flags exactly six are marked required, namely
processorPrivateKey, srcSignalServiceAddress, destTaikoAddress, destERC20VaultAddress,
destERC1155Address and destERC721Address; the other eleven, the three hop lists
hopSignalServiceAddresses, hopTaikoAddresses and hopRpcUrls among them, are not. -/
theorem processor_required_flags :
    ((declaredFlags processorCategory).filter cli.Flag.IsRequired).map cli.Flag.Name =
        ["processorPrivateKey", "srcSignalServiceAddress", "destTaikoAddress",
          "destERC20VaultAddress", "destERC1155Address", "destERC721Address"] ∧
      ((declaredFlags processorCategory).filter (fun f => !f.IsRequired)).map cli.Flag.Name =
        ["headerSyncInterval", "confirmations", "confirmationTimeout", "profitableOnly",
          "backoff.retryInterval", "backoff.maxRetrys", "queue.prefetch", "enableTaikoL2",
          "hopSignalServiceAddresses", "hopTaikoAddresses", "hopRpcUrls"] ∧
      (declaredFlags processorCategory).length = 17 ∧
      ((HopSignalServiceAddresses processorCategory).Name,
        (HopSignalServiceAddresses processorCategory).Required) =
        ("hopSignalServiceAddresses", false) ∧
      ((HopTaikoAddresses processorCategory).Name,
        (HopTaikoAddresses processorCategory).Required) = ("hopTaikoAddresses", false) ∧
      ((HopRPCUrls processorCategory).Name, (HopRPCUrls processorCategory).Required) =
        ("hopRpcUrls", false) :=
  ⟨rfl, rfl, rfl, rfl, rfl, rfl⟩

/-- C8 (the code against its own usage text): the usage text of destERC20VaultAddress says the
option is "only required if you want to process NFTs", yet the declaration marks it required
without condition, so an invocation that sets every other required processor flag and leaves
this one out is refused with destERC20VaultAddress reported missing. -/
theorem destERC20VaultAddress_required_unconditionally :
    (DestERC20VaultAddress processorCategory).Usage =
        "ERC20Vault address for the destination chain, only required if you want to process NFTs" ∧
      (DestERC20VaultAddress processorCategory).Required = true ∧
      cli.checkRequiredFlags (processorFlagList processorCategory) setsAllButERC20Vault =
        ["destERC20VaultAddress"] :=
  ⟨rfl, rfl, rfl⟩

/-- C9: the list passed to `MergeFlags` to build `ProcessorFlags` holds the seventeen flags
declared in `processor.go` (six in the first block, eleven in the second), each exactly once:
it is a rearrangement of the declared flags and has no repetition. -/
theorem processorFlagList_registers_each_flag_once
    (MergeFlags : List (List cli.Flag) → List cli.Flag) (CommonFlags : List cli.Flag) :
    ProcessorFlags processorCategory MergeFlags CommonFlags =
        MergeFlags [CommonFlags, processorFlagList processorCategory] ∧
      (processorFlagList processorCategory).Perm (declaredFlags processorCategory) ∧
      (processorFlagList processorCategory).Nodup ∧
      (processorFlagList processorCategory).length = 17 ∧
      (firstVarBlock processorCategory).length = 6 ∧
      (secondVarBlock processorCategory).length = 11 :=
  ⟨rfl, processorFlagList_perm_declaredFlags processorCategory,
    (processorFlagList_perm_declaredFlags processorCategory).nodup_iff.mpr
      (declaredFlags_nodup processorCategory),
    rfl, rfl, rfl⟩

/-- C10: the processor flags are unambiguous: the names of the seventeen processor flags are
pairwise distinct, and so are the environment variables gathered from all their `EnvVars`
lists. -/
theorem processor_flag_names_and_envVars_distinct :
    ((declaredFlags processorCategory).map cli.Flag.Name).Nodup ∧
      ((declaredFlags processorCategory).flatMap cli.Flag.EnvVars).Nodup ∧
      (declaredFlags processorCategory).length = 17 := by
  refine ⟨?_, ?_, rfl⟩
  · rw [declaredFlags_names]
    decide
  · rw [declaredFlags_envVars]
    decide

end ProcessorFlagTheorems

/-! ## Properties of the startup model -/

/-- A process stopped by a configuration error stays so however often the loop turns. -/
theorem consume_iterate_configurationError (k : Nat) :
    consume^[k] ProcessState.configurationError = ProcessState.configurationError := by
  induction k with
  | zero => rfl
  | succ n ih => rw [Function.iterate_succ_apply, consume, ih]

/-- C7: a configuration whose three hop lists do not all have the same length is rejected with a
configuration error at startup, and no event is consumed afterwards, however many the queue
offers. -/
theorem startup_rejects_mismatched_hop_lists (c : HopConfiguration)
    (hmismatch : ¬ (c.hopSignalServiceAddresses.length = c.hopTaikoAddresses.length ∧
      c.hopTaikoAddresses.length = c.hopRpcUrls.length)) (k : Nat) :
    startup c = ProcessState.configurationError ∧ eventsConsumed (consume^[k] (startup c)) = 0 := by
  have hstop : startup c = ProcessState.configurationError := by
    unfold startup
    rw [if_neg hmismatch]
  rw [hstop, consume_iterate_configurationError]
  exact ⟨rfl, rfl⟩

/-- Instance of C7: two hop signal-service addresses with one hop Taiko address (and two RPC
URLs) are rejected at startup, and after three turns of the loop no event has been consumed. -/
theorem startup_rejects_mismatched_hop_lists_witness :
    startup ⟨["0xA1", "0xA2"], ["0xB1"], ["http://h1", "http://h2"]⟩ =
        ProcessState.configurationError ∧
      eventsConsumed (consume^[3]
        (startup ⟨["0xA1", "0xA2"], ["0xB1"], ["http://h1", "http://h2"]⟩)) = 0 :=
  startup_rejects_mismatched_hop_lists ⟨["0xA1", "0xA2"], ["0xB1"], ["http://h1", "http://h2"]⟩
    (by decide) 3

end Relayer
